import Mathlib

/-!
Shallow embedding of the pact-vm interpreter (src/lib.rs, src/helper.rs,
src/error.rs).  Machine bytes are modelled as `Nat` values; 8-bit wrapping
arithmetic is written with explicit `% 256`.  The 3-bit and 4-bit operand
field types (`U3`, `U4` in src/helper.rs) are modelled as `Fin 8` / `Fin 16`,
built by the same masking conversions the source uses.
-/

set_option maxRecDepth 100000

namespace PactVM

/-- 2-bit register id (src/lib.rs `Register`). -/
inductive Register
  | Ra
  | Rb
  | Rc
  | Rd
deriving DecidableEq, Repr

/-- `impl From<u8> for Register`: masks the low two bits. -/
def Register.fromByte (id : Nat) : Register :=
  match id &&& 0b11 with
  | 0 => .Ra
  | 1 => .Rb
  | 2 => .Rc
  | _ => .Rd

/-- `Register as u8` (the `repr(u8)` discriminant). -/
def Register.toNat : Register → Nat
  | .Ra => 0
  | .Rb => 1
  | .Rc => 2
  | .Rd => 3

/-- The register id as an index into the 4-entry register file. -/
def Register.toFin : Register → Fin 4
  | .Ra => 0
  | .Rb => 1
  | .Rc => 2
  | .Rd => 3

/-- 2-bit device id (src/lib.rs `Device`). -/
inductive Device
  | Cpu
  | Kbd
  | Scr
  | Mth
deriving DecidableEq, Repr

/-- `impl From<u8> for Device`: masks the low two bits. -/
def Device.fromByte (id : Nat) : Device :=
  match id &&& 0b11 with
  | 0 => .Cpu
  | 1 => .Kbd
  | 2 => .Scr
  | _ => .Mth

/-- `Device as u8`. -/
def Device.toNat : Device → Nat
  | .Cpu => 0
  | .Kbd => 1
  | .Scr => 2
  | .Mth => 3

/-- `impl From<u8> for U3` (src/helper.rs): masks the low three bits. -/
def u3of (v : Nat) : Fin 8 :=
  ⟨v % 8, Nat.mod_lt _ (by omega)⟩

/-- `impl From<u8> for U4` (src/helper.rs): masks the low four bits. -/
def u4of (v : Nat) : Fin 16 :=
  ⟨v % 16, Nat.mod_lt _ (by omega)⟩

/-- 3-bit opcode tag (src/lib.rs `Opcode`). -/
inductive Opcode
  | Adi
  | Add
  | Sub
  | Jne
  | Jg
  | Jl
  | Ioi
  | Ior
deriving DecidableEq, Repr

/-- `impl From<u8> for Opcode`: the low three bits select the variant. -/
def Opcode.fromByte (b : Nat) : Opcode :=
  match b &&& 0b111 with
  | 0 => .Adi
  | 1 => .Add
  | 2 => .Sub
  | 3 => .Jne
  | 4 => .Jg
  | 5 => .Jl
  | 6 => .Ioi
  | _ => .Ior

/-- `Opcode as u8`. -/
def Opcode.toNat : Opcode → Nat
  | .Adi => 0
  | .Add => 1
  | .Sub => 2
  | .Jne => 3
  | .Jg => 4
  | .Jl => 5
  | .Ioi => 6
  | .Ior => 7

/-- Operand payload (src/lib.rs `InstructionData`). -/
inductive InstructionData
  | Imm : Nat → InstructionData
  | Reg : Bool → Register → Register → InstructionData
  | Mem : Bool → Fin 16 → InstructionData
  | IoRef : Device → Fin 8 → InstructionData
deriving DecidableEq, Repr

/-- `Opcode::parse_data` (src/lib.rs lines 313-356). -/
def Opcode.parse_data (op : Opcode) (data : Nat) : InstructionData :=
  match op with
  | .Adi => .Imm (data >>> 3)
  | .Add | .Sub =>
    .Reg (data &&& 0b00001000 != 0) (Register.fromByte (data >>> 4))
      (Register.fromByte (data >>> 6))
  | .Jne | .Jg | .Jl =>
    .Mem (data &&& 0b00001000 != 0) (u4of (data >>> 4))
  | .Ioi | .Ior =>
    .IoRef (Device.fromByte (data >>> 3)) (u3of (data >>> 5))

/-- `Instruction(Opcode, InstructionData)` (src/lib.rs line 289). -/
structure Instruction where
  opcode : Opcode
  data : InstructionData
deriving DecidableEq, Repr

/-- `impl From<InstructionData> for u8` (src/lib.rs lines 427-455).
The immediate shift is a `u8` shift, so it wraps at 256. -/
def InstructionData.toByte : InstructionData → Nat
  | .Imm imm => (imm <<< 3) % 256
  | .Reg is_id src dest =>
    (if is_id then 1 <<< 3 else 0) ||| (src.toNat <<< 4) ||| (dest.toNat <<< 6)
  | .Mem is_ptr addr =>
    (if is_ptr then 1 <<< 3 else 0) ||| (addr.val <<< 4)
  | .IoRef device function =>
    (device.toNat <<< 3) ||| (function.val <<< 5)

/-- `impl From<Instruction> for u8` (src/lib.rs lines 291-298). -/
def Instruction.toByte (instruction : Instruction) : Nat :=
  instruction.opcode.toNat ||| instruction.data.toByte

/-- The per-byte decoding step of `read_file` (src/lib.rs lines 37-40):
the opcode comes from the low three bits, the payload from
`parse_data(byte & 0b11111000)`. -/
def decodeByte (byte : Nat) : Instruction :=
  ⟨Opcode.fromByte byte, (Opcode.fromByte byte).parse_data (byte &&& 0b11111000)⟩

/-- `MAGIC` (src/lib.rs line 11). -/
def MAGIC : Nat := 0x8bca

/-- `check_magic` (src/lib.rs lines 13-16): big-endian composition of the
two signature bytes compared against `MAGIC`. -/
def check_magic (s0 s1 : Nat) : Bool :=
  ((s0 <<< 8) ||| s1) == MAGIC

/-- Machine state (src/lib.rs `Rim`): the decoded program, the position
counter, four 8-bit registers, two flags, and the 4096-byte data segment. -/
structure Rim where
  instructions : List Instruction
  pc : Nat
  registers : Fin 4 → Nat
  flags : Fin 2 → Bool
  data : Fin 4096 → Nat

/-- `impl Default for Rim` (src/lib.rs lines 276-280): everything zeroed. -/
def rimDefault : Rim :=
  { instructions := [], pc := 0, registers := fun _ => 0, flags := fun _ => false,
    data := fun _ => 0 }

/-- The ways execution can abort at run time: a panicking array index, a
`todo!()` arm (Kbd functions 0/1), integer division by zero, a mismatched
payload accessor (`as_imm` etc. on the wrong variant), or an
`unreachable!()` arm. -/
inductive StepErr
  | oob
  | todoFn
  | divZero
  | badPayload
  | unreach
deriving DecidableEq, Repr

/-- A dynamically indexed read of the data segment (`self.data[addr]`):
out-of-range indices panic in the source.  (The index is written `i % 4096`
only so the guard is non-dependent; under the guard `i % 4096 = i`.) -/
def Rim.dataAt (s : Rim) (i : Nat) : Except StepErr Nat :=
  if i < 4096 then .ok (s.data ⟨i % 4096, Nat.mod_lt _ (by omega)⟩) else .error .oob

/-- A dynamically indexed write of the data segment (`self.data[addr] = v`). -/
def Rim.dataSet (s : Rim) (i v : Nat) : Except StepErr Rim :=
  if i < 4096 then
    .ok { s with data := Function.update s.data ⟨i % 4096, Nat.mod_lt _ (by omega)⟩ v }
  else .error .oob

/-- A dynamically indexed read of the register file
(`self.registers[n]` with a run-time index): indices ≥ 4 panic. -/
def Rim.regAt (s : Rim) (i : Nat) : Except StepErr Nat :=
  if i < 4 then .ok (s.registers ⟨i % 4, Nat.mod_lt _ (by omega)⟩) else .error .oob

/-- `InstructionData::as_imm` (src/lib.rs lines 394-400); panics on the
wrong variant. -/
def InstructionData.as_imm : InstructionData → Except StepErr Nat
  | .Imm imm => .ok imm
  | _ => .error .badPayload

/-- `InstructionData::as_reg` (src/lib.rs lines 402-408). -/
def InstructionData.as_reg : InstructionData → Except StepErr (Bool × Register × Register)
  | .Reg is_id src dest => .ok (is_id, src, dest)
  | _ => .error .badPayload

/-- `InstructionData::as_mem` (src/lib.rs lines 410-416). -/
def InstructionData.as_mem : InstructionData → Except StepErr (Bool × Fin 16)
  | .Mem is_ptr addr => .ok (is_ptr, addr)
  | _ => .error .badPayload

/-- `InstructionData::as_io` (src/lib.rs lines 418-424). -/
def InstructionData.as_io : InstructionData → Except StepErr (Device × Fin 8)
  | .IoRef device function => .ok (device, function)
  | _ => .error .badPayload

/-- `Rim::io` (src/lib.rs lines 164-273).  Returns `(halt, new state)`.
The `Scr` print calls only write to the terminal, so they leave the machine
state unchanged.  `!x` on a `u8` is embedded as `x ^^^ 255`. -/
def Rim.io (s : Rim) (device : Device) (function : Fin 8) (value : Nat) :
    Except StepErr (Bool × Rim) :=
  match device with
  | .Cpu =>
    match function.val with
    | 0 => .ok (true, s)
    | 1 => .ok (false, s)
    | 2 => .ok (false, { s with registers := Function.update s.registers 0 0 })
    | 3 =>
      match s.dataAt ((s.registers 3 <<< 4) ||| value) with
      | .error e => .error e
      | .ok b => .ok (false, { s with registers := Function.update s.registers 0 b })
    | 4 =>
      match s.dataSet ((s.registers 3 <<< 4) ||| s.registers 0) value with
      | .error e => .error e
      | .ok t => .ok (false, t)
    | 5 =>
      -- Note the source's second composition re-ORs the high register with
      -- the already composed address (there is no memory read here).
      match s.dataAt ((s.registers 3 <<< 4) ||| ((s.registers 3 <<< 4) ||| value)) with
      | .error e => .error e
      | .ok b => .ok (false, { s with registers := Function.update s.registers 0 b })
    | 6 =>
      match s.dataSet ((s.registers 3 <<< 4) ||| ((s.registers 3 <<< 4) ||| s.registers 0))
          value with
      | .error e => .error e
      | .ok t => .ok (false, t)
    | 7 => .ok (false, s)
    | _ => .error .unreach
  | .Kbd =>
    match function.val with
    | 0 => .error .todoFn
    | 1 => .error .todoFn
    | 2 | 3 | 4 | 5 | 6 | 7 => .ok (false, s)
    | _ => .error .unreach
  | .Scr =>
    match function.val with
    | 0 | 1 | 2 => .ok (false, s)
    | 3 => .ok (false, { s with registers := Function.update s.registers 0 0 })
    | 4 => .ok (false, { s with registers := Function.update s.registers 0 0 })
    | 5 | 6 | 7 => .ok (false, s)
    | _ => .error .unreach
  | .Mth =>
    match function.val with
    | 0 =>
      match s.regAt value with
      | .error e => .error e
      | .ok rv =>
        let res := (s.registers 0 * rv) % 65536
        .ok (false, { s with
          registers := Function.update (Function.update s.registers 0 (res % 256)) 1
            ((res >>> 8) % 256),
          flags := Function.update s.flags 1 (res == 0) })
    | 1 =>
      match s.regAt value with
      | .error e => .error e
      | .ok rv =>
        if rv = 0 then .error .divZero
        else
          let res := s.registers 0 / rv
          .ok (false, { s with
            registers := Function.update s.registers 0 res,
            flags := Function.update s.flags 1 (res == 0) })
    | 2 =>
      let res := s.registers 0 &&& s.registers 0
      .ok (false, { s with
        registers := Function.update s.registers 0 res,
        flags := Function.update s.flags 1 (res == 0) })
    | 3 =>
      let res := s.registers 0 ||| s.registers 0
      .ok (false, { s with
        registers := Function.update s.registers 0 res,
        flags := Function.update s.flags 1 (res == 0) })
    | 4 =>
      let res := s.registers 0 ^^^ s.registers 0
      .ok (false, { s with
        registers := Function.update s.registers 0 res,
        flags := Function.update s.flags 1 (res == 0) })
    | 5 =>
      let res := s.registers 0 ^^^ 255
      .ok (false, { s with
        registers := Function.update s.registers 0 res,
        flags := Function.update s.flags 1 (res == 0) })
    | 6 =>
      -- reads `self.registers[res]` (res packed from the flags) and
      -- discards the result: no observable effect
      .ok (false, s)
    | 7 =>
      .ok (false, { s with
        flags := Function.update (Function.update s.flags 0 (value &&& 0b01 != 0)) 1
          (value &&& 0b10 != 0) })
    | _ => .error .unreach

/-- One iteration of the `Rim::run` loop body (src/lib.rs lines 64-158):
execute a single instruction, returning `(halt, new state)`. -/
def Rim.step (s : Rim) (instruction : Instruction) : Except StepErr (Bool × Rim) :=
  match instruction.opcode with
  | .Adi =>
    match instruction.data.as_imm with
    | .error e => .error e
    | .ok imm =>
      let res := (s.registers 0 + imm) % 256
      .ok (false, { s with
        registers := Function.update s.registers 0 res,
        flags := Function.update (Function.update s.flags 0 false) 1 (res == 0) })
  | .Add =>
    match instruction.data.as_reg with
    | .error e => .error e
    | .ok (is_id, src0, dest0) =>
      let src := if is_id then Register.fromByte (s.registers src0.toFin) else src0
      let dest := if is_id then Register.fromByte (s.registers dest0.toFin) else dest0
      let res := (s.registers dest.toFin + s.registers src.toFin) % 256
      .ok (false, { s with
        registers := Function.update s.registers dest.toFin res,
        flags := Function.update (Function.update s.flags 0 false) 1 (res == 0) })
  | .Sub =>
    match instruction.data.as_reg with
    | .error e => .error e
    | .ok (is_id, src0, dest0) =>
      let src := if is_id then Register.fromByte (s.registers src0.toFin) else src0
      let dest := if is_id then Register.fromByte (s.registers dest0.toFin) else dest0
      -- `overflowing_sub` on `u8` values: wrapping result plus borrow flag
      let res := (s.registers dest.toFin + 256 - s.registers src.toFin) % 256
      let sign := decide (s.registers dest.toFin < s.registers src.toFin)
      .ok (false, { s with
        registers := Function.update s.registers dest.toFin res,
        flags := Function.update (Function.update s.flags 0 sign) 1 (res == 0) })
  | .Jne =>
    match instruction.data.as_mem with
    | .error e => .error e
    | .ok (is_ptr, a) =>
      let addr := (s.registers 3 <<< 4) ||| a.val
      match (if is_ptr then
               match s.dataAt addr with
               | .error e => .error e
               | .ok b => .ok ((s.registers 3 <<< 4) ||| b)
             else .ok addr : Except StepErr Nat) with
      | .error e => .error e
      | .ok addr => .ok (false, if !(s.flags 1) then { s with pc := addr } else s)
  | .Jg =>
    match instruction.data.as_mem with
    | .error e => .error e
    | .ok (is_ptr, a) =>
      let addr := (s.registers 3 <<< 4) ||| a.val
      match (if is_ptr then
               match s.dataAt addr with
               | .error e => .error e
               | .ok b => .ok ((s.registers 3 <<< 4) ||| b)
             else .ok addr : Except StepErr Nat) with
      | .error e => .error e
      | .ok addr => .ok (false, if s.flags 0 then { s with pc := addr } else s)
  | .Jl =>
    match instruction.data.as_mem with
    | .error e => .error e
    | .ok (is_ptr, a) =>
      let addr := (s.registers 3 <<< 4) ||| a.val
      match (if is_ptr then
               match s.dataAt addr with
               | .error e => .error e
               | .ok b => .ok ((s.registers 3 <<< 4) ||| b)
             else .ok addr : Except StepErr Nat) with
      | .error e => .error e
      | .ok addr =>
        .ok (false, if !(s.flags 0) && !(s.flags 1) then { s with pc := addr } else s)
  | .Ioi =>
    match instruction.data.as_io with
    | .error e => .error e
    | .ok (device, function) => s.io device function (s.registers 0)
  | .Ior =>
    match instruction.data.as_io with
    | .error e => .error e
    | .ok (device, function) =>
      -- `self.registers[self.registers[0] as usize]`: the accumulator is
      -- used as a register index with no masking
      match s.regAt (s.registers 0) with
      | .error e => .error e
      | .ok v => s.io device function v

/-- The `Rim::run` loop (src/lib.rs lines 62-162): iterate a snapshot of
the instruction list in order; stop early on a halt signal or an abort. -/
def runList : List Instruction → Rim → Except StepErr Rim
  | [], s => .ok s
  | i :: rest, s =>
    match s.step i with
    | .error e => .error e
    | .ok (true, t) => .ok t
    | .ok (false, t) => runList rest t

/-- `Rim::run` (src/lib.rs line 62): the loop is driven by a clone of
`self.instructions`, taken once at entry. -/
def Rim.run (s : Rim) : Except StepErr Rim :=
  runList s.instructions s

/-- Same loop, also recording which instructions were executed (the trace
includes the instruction whose execution halted or aborted). -/
def runTrace : List Instruction → Rim → List Instruction × Except StepErr Rim
  | [], s => ([], .ok s)
  | i :: rest, s =>
    match s.step i with
    | .error e => ([i], .error e)
    | .ok (true, t) => ([i], .ok t)
    | .ok (false, t) =>
      let p := runTrace rest t
      (i :: p.1, p.2)

/-- One `file.read(&mut buf)` call of the loader loop, as observed by
`read_file`: either a chunk of bytes (empty = end of stream) or an I/O
failure. -/
inductive ReadEvent
  | chunk (bytes : List Nat)
  | ioErr

/-- The byte source handed to `read_file`: the outcome of the initial
2-byte `read_exact` (an I/O failure covers both a short file and a read
error), then the outcomes of the successive `read` calls. -/
structure ByteSource where
  header : Except Unit (Nat × Nat)
  events : List ReadEvent

/-- `RimError` (src/error.rs lines 7-10). -/
inductive RimError
  | InvalidMagic
  | IoError
deriving DecidableEq, Repr

/-- The `while let Ok(read) = file.read(&mut buf)` loop of `read_file`
(src/lib.rs lines 31-42): a failing `read` simply ends the loop, a
0-byte read breaks, and each byte of a chunk is decoded and appended. -/
def readLoop : List ReadEvent → List Instruction → List Instruction
  | [], acc => acc
  | .ioErr :: _, acc => acc
  | .chunk [] :: _, acc => acc
  | .chunk bytes :: rest, acc => readLoop rest (acc ++ bytes.map decodeByte)

/-- `read_file` (src/lib.rs lines 18-48). -/
def read_file (src : ByteSource) : Except RimError Rim :=
  match src.header with
  | .error _ => .error .IoError
  | .ok (b0, b1) =>
    if check_magic b0 b1 then
      .ok { rimDefault with instructions := readLoop src.events [] }
    else
      .error .InvalidMagic

/-- The instruction list of a successful load. -/
def loadedInstrs : Except RimError Rim → Option (List Instruction)
  | .ok r => some r.instructions
  | .error _ => none

/-- The accumulator value of a successful `io`/`step` outcome. -/
def ioAcc : Except StepErr (Bool × Rim) → Option Nat
  | .ok (_, t) => some (t.registers 0)
  | .error _ => none

/-- The data-segment byte at `i` of a successful `io`/`step` outcome. -/
def ioDataAt (r : Except StepErr (Bool × Rim)) (i : Fin 4096) : Option Nat :=
  match r with
  | .ok (_, t) => some (t.data i)
  | .error _ => none

/-- C1: decoding any byte `b` (3-bit opcode from bits 0-2, opcode-dependent
payload from bits 3-7) and re-encoding yields `b` again. -/
theorem encode_decode_roundtrip : ∀ b : Fin 256, (decodeByte b.val).toByte = b.val := by
  decide

/-- The destination-register index an `Add`/`Sub` instruction resolves
(before executing, on the pre-state): under the indirect flag the
destination id is the value currently stored in the named register, masked
to two bits.  `Adi` always writes the accumulator. -/
def destIndex (s : Rim) (i : Instruction) : Fin 4 :=
  match i.opcode, i.data with
  | .Add, .Reg is_id _ dest | .Sub, .Reg is_id _ dest =>
    if is_id then (Register.fromByte (s.registers dest.toFin)).toFin else dest.toFin
  | _, _ => 0

/-- A state whose accumulator holds 4, all other registers 0. -/
def rimAcc4 : Rim :=
  { rimDefault with registers := fun j => if j = 0 then 4 else 0 }

/-- A state whose accumulator holds 1, all other registers 0. -/
def rimAcc1 : Rim :=
  { rimDefault with registers := fun j => if j = 0 then 1 else 0 }

/-- A state with high-address register 1, `data[0x10] = 5` and
`data[0x15] = 99`. -/
def rimPtr : Rim :=
  { rimDefault with
    registers := fun j => if j = 3 then 1 else 0,
    data := fun a => if a.val = 0x10 then 5 else if a.val = 0x15 then 99 else 0 }

/-- A byte source whose header reads `[0x8B, 0xCA]` and whose first body
read fails with an I/O error. -/
def srcBodyErr : ByteSource := ⟨.ok (0x8B, 0xCA), [.ioErr]⟩

/-- The byte stream `[0x8B, 0xCA, 0x00 | (5 <<< 3), 0x06]`: the magic
header, then one chunk holding the `Adi 5` and `Ioi` Cpu-halt bytes, then
end of stream. -/
def srcScenario : ByteSource := ⟨.ok (0x8B, 0xCA), [.chunk [0x28, 0x06], .chunk []]⟩

/-- The decoded form of the scenario program. -/
def prog9 : List Instruction := [⟨.Adi, .Imm 5⟩, ⟨.Ioi, .IoRef .Cpu 0⟩]

/-- The freshly loaded scenario machine. -/
def rim9 : Rim := { rimDefault with instructions := prog9 }

/-- The scenario machine after `Adi 5` (and after the halt, which leaves
the state untouched). -/
def final9 : Rim :=
  { rim9 with
    registers := Function.update rim9.registers 0 5,
    flags := Function.update (Function.update rim9.flags 0 false) 1 false }

/-- The all-zero machine after `Adi 5`. -/
def rimAfterAdi5 : Rim :=
  { rimDefault with
    registers := Function.update rimDefault.registers 0 5,
    flags := Function.update (Function.update rimDefault.flags 0 false) 1 false }

/-- An OR of two 12-bit values is a 12-bit value. -/
theorem lor_lt_4096 {x y : Nat} (hx : x < 4096) (hy : y < 4096) : x ||| y < 4096 := by
  have h12 : (4096 : Nat) = 2 ^ 12 := by norm_num
  rw [h12] at hx hy ⊢
  exact Nat.bitwise_lt hx hy

/-- The high-address register shifted left by 4 stays below 4096. -/
theorem high_shift_lt {r : Nat} (h : r < 256) : r <<< 4 < 4096 := by
  rw [Nat.shiftLeft_eq]
  norm_num
  omega

/-- Executing any conditional-jump instruction only moves the position
counter: the result is the same state with some new `pc`. -/
theorem step_jump (s : Rim) (op : Opcode) (hop : op = .Jne ∨ op = .Jg ∨ op = .Jl)
    (is_ptr : Bool) (a : Fin 16) (h3 : s.registers 3 < 256) :
    ∃ p, s.step ⟨op, .Mem is_ptr a⟩ = .ok (false, { s with pc := p }) := by
  have haddr : (s.registers 3 <<< 4) ||| a.val < 4096 :=
    lor_lt_4096 (high_shift_lt h3) (lt_trans a.isLt (by norm_num))
  rcases hop with h | h | h <;> subst h <;> cases is_ptr <;>
    simp only [Rim.step, InstructionData.as_mem, Rim.dataAt, haddr, dite_true, dif_pos,
      Bool.false_eq_true, if_false, if_true] <;>
    split <;> exact ⟨_, rfl⟩

/-- Two machine states that agree on everything except the position
counter. -/
def EqExceptPc (s1 s2 : Rim) : Prop :=
  s1.instructions = s2.instructions ∧ s1.registers = s2.registers ∧
    s1.flags = s2.flags ∧ s1.data = s2.data

/-- Lock-step relation between two single-step outcomes: the same abort,
or the same halt signal with states again equal except for `pc`. -/
def outRel : Except StepErr (Bool × Rim) → Except StepErr (Bool × Rim) → Prop
  | .error e1, .error e2 => e1 = e2
  | .ok (h1, t1), .ok (h2, t2) => h1 = h2 ∧ EqExceptPc t1 t2
  | _, _ => False

/-- The device dispatcher never consults the position counter. -/
theorem io_rel {s1 s2 : Rim} (h : EqExceptPc s1 s2) (d : Device) (f : Fin 8) (v : Nat) :
    outRel (s1.io d f v) (s2.io d f v) := by
  obtain ⟨hi, hr, hf, hd⟩ := h
  rcases f with ⟨fv, hfv⟩
  cases d <;> interval_cases fv <;>
    simp only [Rim.io, Rim.dataAt, Rim.dataSet, Rim.regAt, hi, hr, hf, hd] <;>
    first
      | (simp_all [outRel, EqExceptPc]; done)
      | (split_ifs <;>
          first
            | (simp_all [outRel, EqExceptPc]; done)
            | (simp_all [outRel, EqExceptPc]
               split_ifs <;> simp_all [outRel, EqExceptPc]))

/-- A single execution step never consults the position counter. -/
theorem step_rel {s1 s2 : Rim} (h : EqExceptPc s1 s2) (i : Instruction) :
    outRel (s1.step i) (s2.step i) := by
  obtain ⟨hi, hr, hf, hd⟩ := h
  obtain ⟨op, data⟩ := i
  cases op <;> cases data <;>
    simp only [Rim.step, InstructionData.as_imm, InstructionData.as_reg,
      InstructionData.as_mem, InstructionData.as_io, Rim.dataAt, Rim.regAt,
      hi, hr, hf, hd] <;>
    first
      | (simp_all [outRel, EqExceptPc]; done)
      | exact io_rel ⟨hi, hr, hf, hd⟩ _ _ _
      | (split_ifs <;>
          first
            | (simp_all [outRel, EqExceptPc]; done)
            | exact io_rel ⟨hi, hr, hf, hd⟩ _ _ _)

/-- The executed-instruction sequence of the run loop does not depend on
the position counter of the starting state. -/
theorem runTrace_fst_eq (l : List Instruction) :
    ∀ s1 s2 : Rim, EqExceptPc s1 s2 → (runTrace l s1).1 = (runTrace l s2).1 := by
  induction l with
  | nil => intro s1 s2 _; rfl
  | cons i rest ih =>
    intro s1 s2 h
    have hrel := step_rel h i
    cases e1 : s1.step i with
    | error e =>
      cases e2 : s2.step i with
      | error e' => simp [runTrace, e1, e2]
      | ok q =>
        obtain ⟨q1, t2⟩ := q
        rw [e1, e2] at hrel
        simp [outRel] at hrel
    | ok p =>
      obtain ⟨p1, t1⟩ := p
      cases e2 : s2.step i with
      | error e' =>
        rw [e1, e2] at hrel
        simp [outRel] at hrel
      | ok q =>
        obtain ⟨p2, t2⟩ := q
        rw [e1, e2] at hrel
        obtain ⟨hb, ht⟩ := hrel
        subst hb
        cases p1 <;> simp [runTrace, e1, e2, ih _ _ ht]

/-- C2: executing a `Jne`, `Jg` or `Jl` instruction mutates at most the
position counter (registers, flags, data segment and program are
unchanged), and, because the run loop iterates a fixed snapshot of the
instruction sequence in order without consulting `pc`, the sequence of
instructions subsequently executed is the same whether or not the jump
was taken (it is insensitive to any difference in `pc`). -/
theorem jump_moves_only_pc_and_dispatch_is_linear (s : Rim) (op : Opcode)
    (hop : op = .Jne ∨ op = .Jg ∨ op = .Jl) (is_ptr : Bool) (a : Fin 16)
    (h3 : s.registers 3 < 256) :
    (∃ p, s.step ⟨op, .Mem is_ptr a⟩ = .ok (false, { s with pc := p })) ∧
    ∀ (l : List Instruction) (s1 s2 : Rim), EqExceptPc s1 s2 →
      (runTrace l s1).1 = (runTrace l s2).1 :=
  ⟨step_jump s op hop is_ptr a h3, fun l s1 s2 h => runTrace_fst_eq l s1 s2 h⟩

/-- Witness for C2: the jump frame property at a concrete state and
instruction. -/
theorem jump_moves_only_pc_witness :
    ∃ p, rimDefault.step ⟨.Jne, .Mem true 0⟩ = .ok (false, { rimDefault with pc := p }) :=
  (jump_moves_only_pc_and_dispatch_is_linear rimDefault .Jne (Or.inl rfl) true 0
    (by decide)).1

/-- C8: `check_magic` holds exactly on the byte pair `[0x8B, 0xCA]`
(big-endian `0x8BCA`), and fails on every other byte pair. -/
theorem check_magic_iff_magic_pair :
    ∀ s0 s1 : Fin 256, check_magic s0.val s1.val = true ↔ (s0.val = 0x8B ∧ s1.val = 0xCA) := by
  intro s0 s1
  have h1 : s1.val < 2 ^ 8 := s1.isLt
  have hadd : (s0.val <<< 8) ||| s1.val = 2 ^ 8 * s0.val + s1.val := by
    rw [Nat.shiftLeft_eq, Nat.mul_comm, ← Nat.mul_add_lt_is_or h1]
  simp only [check_magic, MAGIC, beq_iff_eq, hadd]
  omega

/-- C3 counterexample: with accumulator 4, executing `Ior` aborts with an
out-of-range register index (the accumulator is not masked before it is
used to index the register file). -/
theorem ior_aborts_on_acc4 :
    rimAcc4.step ⟨.Ior, .IoRef .Cpu 1⟩ = .error .oob := rfl

/-- C3 amended: `Ior` uses the accumulator's value directly, with no
masking, as a register index: when the accumulator is below 4 the selected
register's contents are passed to the device; when it is 4 or more,
execution aborts with an out-of-range register index. -/
theorem ior_unmasked_register_index (s : Rim) (d : Device) (f : Fin 8) :
    (∀ h : s.registers 0 < 4,
      s.step ⟨.Ior, .IoRef d f⟩ = s.io d f (s.registers ⟨s.registers 0, h⟩)) ∧
    (4 ≤ s.registers 0 → s.step ⟨.Ior, .IoRef d f⟩ = .error .oob) := by
  constructor
  · intro h
    have hfin : (⟨s.registers 0 % 4, Nat.mod_lt _ (by omega)⟩ : Fin 4) =
        ⟨s.registers 0, h⟩ := Fin.ext (Nat.mod_eq_of_lt h)
    simp [Rim.step, InstructionData.as_io, Rim.regAt, h, hfin]
  · intro h
    simp [Rim.step, InstructionData.as_io, Rim.regAt, Nat.not_lt.mpr h]

/-- Witness for the amended C3 at the all-zero state (accumulator 0). -/
theorem ior_unmasked_register_index_witness :
    rimDefault.step ⟨.Ior, .IoRef .Cpu 1⟩ =
      rimDefault.io .Cpu 1 (rimDefault.registers ⟨rimDefault.registers 0, by decide⟩) :=
  (ior_unmasked_register_index rimDefault .Cpu 1).1 (by decide)

/-- C4 counterexample: Cpu function 4 invoked with accumulator 1 and
passed value 2 does not store the accumulator at address `(r3 <<< 4) ||| 2`;
that address still holds 0 afterwards (the write went to address 1). -/
theorem cpu4_does_not_store_acc_at_value_address :
    ioDataAt (rimAcc1.io .Cpu 4 2) ⟨2, by omega⟩ ≠ some (rimAcc1.registers 0) := by
  decide

/-- C4 amended: Cpu device function 4 stores the *passed value* `v` into
the data segment at address `(high-address-register <<< 4) ||| accumulator`
— the address low bits come from the accumulator and the stored byte is
`v` — leaving everything else unchanged. -/
theorem cpu4_stores_value_at_acc_address (s : Rim) (v : Nat)
    (h3 : s.registers 3 < 256) (h0 : s.registers 0 < 4096) :
    s.io .Cpu 4 v = .ok (false, { s with
      data := Function.update s.data
        ⟨(s.registers 3 <<< 4) ||| s.registers 0,
         lor_lt_4096 (high_shift_lt h3) h0⟩ v }) := by
  have haddr : (s.registers 3 <<< 4) ||| s.registers 0 < 4096 :=
    lor_lt_4096 (high_shift_lt h3) h0
  have hfin : (⟨((s.registers 3 <<< 4) ||| s.registers 0) % 4096,
      Nat.mod_lt _ (by omega)⟩ : Fin 4096) =
      ⟨(s.registers 3 <<< 4) ||| s.registers 0, haddr⟩ :=
    Fin.ext (Nat.mod_eq_of_lt haddr)
  simp [Rim.io, Rim.dataSet, haddr, hfin]

/-- Witness for the amended C4: a concrete store through the accumulator
address. -/
theorem cpu4_stores_value_at_acc_address_witness :
    rimAcc1.io .Cpu 4 7 = .ok (false, { rimAcc1 with
      data := Function.update rimAcc1.data
        ⟨(rimAcc1.registers 3 <<< 4) ||| rimAcc1.registers 0,
         lor_lt_4096 (high_shift_lt (by decide)) (by decide)⟩ 7 }) :=
  cpu4_stores_value_at_acc_address rimAcc1 7 (by decide) (by decide)

/-- C5: Cpu function 5 performs no memory read in its second composition:
with high register 1, `data[0x10] = 5`, `data[0x15] = 99` and passed value
0, the load resolves `(1 <<< 4) ||| ((1 <<< 4) ||| 0) = 0x10` (the re-OR
is a no-op) and yields 5 — not 99, which a genuine double indirection
through the byte stored at 0x10 would produce. -/
theorem cpu5_second_composition_reads_no_memory :
    ioAcc (rimPtr.io .Cpu 5 0) = some 5 ∧ rimPtr.data ⟨0x15, by omega⟩ = 99 := by
  constructor <;> rfl

/-- C6 counterexample: after a matched header, an I/O failure during the
instruction-stream phase does not surface as an error — the loader
succeeds, returning the (here empty) prefix it decoded. -/
theorem read_file_swallows_body_error :
    read_file srcBodyErr ≠ .error .IoError ∧
    loadedInstrs (read_file srcBodyErr) = some [] :=
  ⟨fun h => Option.noConfusion (congrArg loadedInstrs h), rfl⟩

/-- C6 amended: an I/O failure while reading the 2-byte header surfaces as
`IoError` (distinct from `InvalidMagic`); but a failing read during the
instruction-stream phase merely ends the read loop, so after a matched
header the loader never returns an I/O error — it succeeds with the
instructions decoded before the failure. -/
theorem io_error_only_from_header (src : ByteSource) :
    (src.header = .error () → read_file src = .error .IoError) ∧
    (∀ rest acc, readLoop (.ioErr :: rest) acc = acc) ∧
    (∀ b0 b1, src.header = .ok (b0, b1) → read_file src ≠ .error .IoError) := by
  refine ⟨fun h => by simp [read_file, h], fun rest acc => rfl, fun b0 b1 h => ?_⟩
  simp only [read_file, h]
  split <;> simp

/-- Witness for the amended C6: a failing header read yields `IoError`. -/
theorem io_error_only_from_header_witness :
    read_file ⟨.error (), []⟩ = .error .IoError :=
  (io_error_only_from_header ⟨.error (), []⟩).1 rfl

/-- C7: after an `Adi`, `Add` or `Sub` instruction executes, the zero flag
is true iff the resolved destination register's new value equals 0. -/
theorem zero_flag_iff_dest_zero (s t : Rim) (i : Instruction)
    (hop : i.opcode = .Adi ∨ i.opcode = .Add ∨ i.opcode = .Sub)
    (hstep : s.step i = .ok (false, t)) :
    (t.flags 1 = true ↔ t.registers (destIndex s i) = 0) := by
  obtain ⟨op, data⟩ := i
  rcases hop with h | h | h <;> subst h <;> cases data <;>
    simp only [Rim.step, InstructionData.as_imm, InstructionData.as_reg,
      Except.ok.injEq, Prod.mk.injEq, reduceCtorEq, false_and] at hstep <;>
    try exact hstep.elim
  all_goals
    obtain ⟨-, ht⟩ := hstep
    subst ht
  all_goals
    first
      | (simp [destIndex, Function.update_same, beq_iff_eq]; done)
      | (rename_i is_id _ _
         cases is_id <;> simp [destIndex, Function.update_same, beq_iff_eq])

/-- Witness for C7 at `Adi 5` from the all-zero state. -/
theorem zero_flag_iff_dest_zero_witness :
    (rimDefault.step ⟨.Adi, .Imm 5⟩ = .ok (false, rimAfterAdi5)) ∧
    (rimAfterAdi5.flags 1 = true ↔
      rimAfterAdi5.registers (destIndex rimDefault ⟨.Adi, .Imm 5⟩) = 0) :=
  ⟨rfl, zero_flag_iff_dest_zero rimDefault rimAfterAdi5 ⟨.Adi, .Imm 5⟩ (Or.inl rfl) rfl⟩

/-- C9: loading the byte stream `[0x8B, 0xCA, 0x00 ||| (5 <<< 3), 0x06]`
and running it terminates without error with accumulator 5 and zero flag
false, halted by the Cpu device's halt function: the halt instruction
signals `halt`, and instructions appended after it are never executed. -/
theorem end_to_end_scenario :
    read_file srcScenario = .ok rim9 ∧
    rim9.run = .ok final9 ∧
    final9.registers 0 = 5 ∧
    final9.flags 1 = false ∧
    final9.step ⟨.Ioi, .IoRef .Cpu 0⟩ = .ok (true, final9) ∧
    ∀ extra : List Instruction, runList (prog9 ++ extra) rim9 = .ok final9 :=
  ⟨rfl, rfl, rfl, rfl, rfl, fun _ => rfl⟩

/-- C10: with 8-bit register contents, every data-segment index computed
during `Jne`/`Jg`/`Jl` address resolution and during Cpu device functions
3-6 is strictly below 4096, so those operations never abort on a
data-segment index. -/
theorem data_indices_in_bounds (s : Rim) (h3 : s.registers 3 < 256)
    (h0 : s.registers 0 < 4096) :
    (∀ op, (op = .Jne ∨ op = .Jg ∨ op = .Jl) → ∀ (is_ptr : Bool) (a : Fin 16),
      ∃ p, s.step ⟨op, .Mem is_ptr a⟩ = .ok (false, { s with pc := p })) ∧
    (∀ f : Fin 8, 3 ≤ f.val → f.val ≤ 6 → ∀ v, v < 4096 →
      ∃ r, s.io .Cpu f v = .ok r) := by
  constructor
  · intro op hop is_ptr a
    exact step_jump s op hop is_ptr a h3
  · intro f h3f h6f v hv
    have hsh : s.registers 3 <<< 4 < 4096 := high_shift_lt h3
    rcases f with ⟨fv, hfv⟩
    interval_cases fv <;>
      simp [Rim.io, Rim.dataAt, Rim.dataSet, lor_lt_4096 hsh hv,
        lor_lt_4096 hsh h0, lor_lt_4096 hsh (lor_lt_4096 hsh hv),
        lor_lt_4096 hsh (lor_lt_4096 hsh h0)]

/-- Witness for C10: Cpu function 5 succeeds on the all-zero state. -/
theorem data_indices_in_bounds_witness :
    ∃ r, rimDefault.io .Cpu ⟨5, by omega⟩ 0 = .ok r :=
  (data_indices_in_bounds rimDefault (by decide) (by decide)).2
    ⟨5, by omega⟩ (by decide) (by decide) 0 (by decide)

end PactVM
